import Mathlib

/-
  Shallow embedding of the cloud-gov aws_opensearch_preprocess_lambdas
  repository (three Python lambda modules):
    - lambda_functions/transform_lambda.py            (metric pipeline)
    - lambda_functions/transform_cloudwatch_lambda.py (log pipeline)
    - lambda_functions/add_cloudwatch_subscrition.py  (subscription provisioner)

  Python dicts become association lists, the functools.lru_cache decorator
  becomes an explicit LRU structure threaded through the functions as state,
  boto3 client calls become injected fetch functions returning Except, and
  raised exceptions become Except.error results.  API-invocation counters are
  threaded as instrumentation so that "the fetch is invoked at most once"
  style properties are expressible.
-/

namespace OSP

/-- A tag value: Python string, int (AllocatedStorage), or None. -/
inductive TagVal where
  | str (s : String)
  | num (n : Int)
  | null
deriving DecidableEq, Repr

/-- A Python dict from tag key to tag value, as an association list with
unique keys in insertion order. -/
abbrev Dict := List (String × TagVal)

/-- Python `k in d` for a dict. -/
def dictContains (d : Dict) (k : String) : Bool :=
  d.any (fun p => p.1 == k)

/-- Python `d.get(k)` for a dict. -/
def dictFind? (d : Dict) (k : String) : Option TagVal :=
  (d.find? (fun p => p.1 == k)).map (fun p => p.2)

/-- Python `d[k] = v` and `d.update(...)`: replace in place when the key exists,
append otherwise (Python dict insertion-order semantics). -/
def dictInsert (d : Dict) (k : String) (v : TagVal) : Dict :=
  if d.any (fun p => p.1 == k) then
    d.map (fun p => if p.1 == k then (k, v) else p)
  else
    d ++ [(k, v)]

/-- The dict comprehension over a TagList response:
`\x7btag["Key"]: tag["Value"] for tag in response.get("TagList", [])\x7d`. -/
def dictOfTagList (tl : List (String × String)) : Dict :=
  tl.foldl (fun d p => dictInsert d p.1 (TagVal.str p.2)) []

/-- Python `d.pop(k, None)` on a string-valued dict (metric dimensions). -/
def popKey (k : String) (l : List (String × String)) : List (String × String) :=
  l.filter (fun p => !(p.1 == k))

/-- Python `s.startswith(pre)`, computed structurally on the
character lists. -/
def strStarts (pre s : String) : Bool :=
  pre.data.isPrefixOf s.data

/-- Python `s.split("/")` (explicit single-character
separator, empty parts kept), computed structurally. -/
def splitSlashAux : List Char → List Char → List String
  | [], acc => [String.mk acc.reverse]
  | c :: t, acc =>
      if c == '/' then String.mk acc.reverse :: splitSlashAux t []
      else splitSlashAux t (c :: acc)

/-- Python `s.split("/")`. -/
def splitOnSlash (s : String) : List String :=
  splitSlashAux s.data []

/-- Substring test on lists (the Python `needle in haystack` operator),
written recursively so that append lemmas are provable by induction. -/
def subList (n : List Char) : List Char → Bool
  | [] => n.isEmpty
  | c :: t => n.isPrefixOf (c :: t) || subList n t

/-- Python `needle in hay` on strings. -/
def substrIn (needle hay : String) : Bool :=
  subList needle.data hay.data

/-- The capacity of every functools.lru_cache in the sources: maxsize=256. -/
def LRU_CAP : Nat := 256

/-- An lru_cache content: most-recently-used entry first. -/
structure LRU (α : Type) where
  entries : List (String × α)
deriving DecidableEq, Repr

/-- Cache lookup. -/
def LRU.find? {α : Type} (c : LRU α) (k : String) : Option α :=
  ((c.entries.find? (fun p => p.1 == k)).map (fun p => p.2))

/-- Move a (present) key to the most-recently-used position. -/
def LRU.touch {α : Type} (c : LRU α) (k : String) : LRU α :=
  match c.find? k with
  | some v => ⟨(k, v) :: c.entries.filter (fun p => !(p.1 == k))⟩
  | none => c

/-- Store a value, evicting the least-recently-used entry beyond capacity. -/
def LRU.insert {α : Type} (c : LRU α) (k : String) (v : α) : LRU α :=
  ⟨((k, v) :: c.entries.filter (fun p => !(p.1 == k))).take LRU_CAP⟩

/-- The empty cache. -/
def LRU.empty {α : Type} : LRU α := ⟨[]⟩

/-! ## Injected boto3 collaborators

Each boto3 API call the sources make is modelled as an injected function
from its request argument to `Except` of its response payload; `.error`
models the call raising an exception. -/

/-- Errors of `s3_client.get_bucket_tagging`: `get_tags_from_name` catches
only `client.exceptions.NoSuchTagSet`, so the two cases must be separate. -/
inductive S3Err where
  | noSuchTagSet
  | other
deriving DecidableEq, Repr

/-- The boto3 clients used by transform_lambda.py, as fetch functions:
`s3fetch name` = `get_bucket_tagging(Bucket=name)` (its TagSet),
`esfetch arn` = `es list_tags(ARN=arn)` (its TagList),
`dbfetch arn` = `rds list_tags_for_resource(ResourceName=arn)` (its TagList),
`descFetch db` = `describe_db_instances(...)["DBInstances"][0]["AllocatedStorage"]`. -/
structure Clients where
  s3fetch : String → Except S3Err (List (String × String))
  esfetch : String → Except Unit (List (String × String))
  dbfetch : String → Except Unit (List (String × String))
  descFetch : String → Except Unit Int

/-- The process-wide mutable state of transform_lambda.py: the three
lru_cache contents, plus instrumentation counting every underlying API
invocation (`dbFetch`, `esFetch`, `s3Fetch`, `descApi`) and every call of
the `get_rds_description` function itself (`descCalls`). -/
structure St where
  arnCache : LRU Dict
  nameCache : LRU Dict
  descCache : LRU TagVal
  dbFetch : Nat
  esFetch : Nat
  s3Fetch : Nat
  descApi : Nat
  descCalls : Nat
deriving DecidableEq, Repr

/-- The all-empty initial state. -/
def St.empty : St := ⟨LRU.empty, LRU.empty, LRU.empty, 0, 0, 0, 0, 0⟩

/-- The body of transform_lambda.get_tags_from_arn (lines 207-224): the
uncached work.  `tags = \x7b\x7d`; a `":domain/" in arn` branch querying
`es list_tags` (all exceptions caught); then a `":db:" in arn` branch
querying `rds list_tags_for_resource` (all exceptions caught) that returns
`\x7b\x7d` early when the fetched dict lacks "Organization GUID". -/
def getTagsFromArnBody (es db : String → Except Unit (List (String × String)))
    (arn : String) (st : St) : Dict × St :=
  let r1 : Dict × St :=
    if substrIn ":domain/" arn then
      match es arn with
      | .ok tl => (dictOfTagList tl, { st with esFetch := st.esFetch + 1 })
      | .error _ => ([], { st with esFetch := st.esFetch + 1 })
    else ([], st)
  if substrIn ":db:" arn then
    let st2 := { r1.2 with dbFetch := r1.2.dbFetch + 1 }
    match db arn with
    | .ok tl =>
        let t := dictOfTagList tl
        if dictContains t "Organization GUID" then (t, st2) else ([], st2)
    | .error _ => (r1.1, st2)
  else r1

/-- transform_lambda.get_tags_from_arn with its `@lru_cache(maxsize=256)`:
on a hit the cached dict is returned (entry refreshed); on a miss the body
runs and its result — whatever it is — is stored. -/
def getTagsFromArnC (es db : String → Except Unit (List (String × String)))
    (arn : String) (st : St) : Dict × St :=
  match st.arnCache.find? arn with
  | some v => (v, { st with arnCache := st.arnCache.touch arn })
  | none =>
      let r := getTagsFromArnBody es db arn st
      (r.1, { r.2 with arnCache := r.2.arnCache.insert arn r.1 })

/-- The process-wide mutable state of transform_cloudwatch_lambda.py: its
single lru_cache plus a counter of `list_tags_for_resource` invocations. -/
structure StCW where
  cache : LRU Dict
  dbFetch : Nat
deriving DecidableEq, Repr

/-- The all-empty initial state of the log pipeline. -/
def StCW.empty : StCW := ⟨LRU.empty, 0⟩

/-- The body of transform_cloudwatch_lambda.get_tags_from_arn
(lines 192-207): only the `":db:" in arn` branch, same required-tag
policy, all fetch exceptions caught. -/
def getTagsFromArnCWBody (db : String → Except Unit (List (String × String)))
    (arn : String) (st : StCW) : Dict × StCW :=
  if substrIn ":db:" arn then
    let st2 := { st with dbFetch := st.dbFetch + 1 }
    match db arn with
    | .ok tl =>
        let t := dictOfTagList tl
        if dictContains t "Organization GUID" then (t, st2) else ([], st2)
    | .error _ => ([], st2)
  else ([], st)

/-- transform_cloudwatch_lambda.get_tags_from_arn with its lru_cache. -/
def getTagsFromArnCW (db : String → Except Unit (List (String × String)))
    (arn : String) (st : StCW) : Dict × StCW :=
  match st.cache.find? arn with
  | some v => (v, { st with cache := st.cache.touch arn })
  | none =>
      let r := getTagsFromArnCWBody db arn st
      (r.1, { r.2 with cache := r.2.cache.insert arn r.1 })

/-- transform_lambda.get_rds_description (lines 186-192) with its
lru_cache: the body catches every exception and falls through, returning
Python None (`TagVal.null`).  `descCalls` counts invocations of the
function itself; `descApi` counts underlying `describe_db_instances`
calls. -/
def getRdsDescriptionC (descFetch : String → Except Unit Int)
    (db_name : String) (st : St) : TagVal × St :=
  let st := { st with descCalls := st.descCalls + 1 }
  match st.descCache.find? db_name with
  | some v => (v, { st with descCache := st.descCache.touch db_name })
  | none =>
      let st2 := { st with descApi := st.descApi + 1 }
      let v := match descFetch db_name with
               | .ok n => TagVal.num n
               | .error _ => TagVal.null
      (v, { st2 with descCache := st2.descCache.insert db_name v })

/-- transform_lambda.get_tags_from_name (lines 195-204) with its
lru_cache.  Only `NoSuchTagSet` is caught (yielding the empty dict, which
is cached); any other fetch exception propagates out of the function, in
which case lru_cache stores nothing — modelled by the `none` result. -/
def getTagsFromNameC (s3f : String → Except S3Err (List (String × String)))
    (name : String) (st : St) : Option Dict × St :=
  match st.nameCache.find? name with
  | some v => (some v, { st with nameCache := st.nameCache.touch name })
  | none =>
      let st2 := { st with s3Fetch := st.s3Fetch + 1 }
      match s3f name with
      | .ok ts =>
          let d := dictOfTagList ts
          (some d, { st2 with nameCache := st2.nameCache.insert name d })
      | .error S3Err.noSuchTagSet =>
          (some [], { st2 with nameCache := st2.nameCache.insert name [] })
      | .error S3Err.other => (none, st2)

/-! ## Naming/prefix resolvers -/

/-- transform_lambda.make_prefixes (lines 77-101).  The environment
selector is `os.getenv("ENVIRONMENT")` (`none` when unset).  NOTE (faithful
to the source): line 80 constructs `RuntimeError("environment is required")`
but does not raise it, and there is no membership check, so the function
always returns a triple (rds, s3, domain). -/
def makePrefixesTL (env : Option String) : String × String × String :=
  let s3Pre :=
    if env == some "development" || env == some "staging" then
      (env.getD "") ++ "-cg-"
    else "cg-"
  let domPre := "cg-broker-"
  let domPre := if env == some "production" then domPre ++ "prd-" else domPre
  let domPre := if env == some "staging" then domPre ++ "stg-" else domPre
  let domPre := if env == some "development" then domPre ++ "dev-" else domPre
  let rdsPre := "cg-aws-broker-"
  let rdsPre := if env == some "production" then rdsPre ++ "prod" else rdsPre
  let rdsPre := if env == some "staging" then rdsPre ++ "stage" else rdsPre
  let rdsPre := if env == some "development" then rdsPre ++ "dev" else rdsPre
  (rdsPre, s3Pre, domPre)

/-- The environment_suffixes table shared by the other two modules. -/
def envSuffix (e : String) : Option String :=
  if e == "production" then some "prod"
  else if e == "staging" then some "stage"
  else if e == "development" then some "dev"
  else none

/-- transform_cloudwatch_lambda.make_prefixes (lines 124-143): raises
RuntimeError when ENVIRONMENT is unset/empty or not in the fixed table. -/
def makePrefixesCW (env : Option String) : Except String String :=
  match env with
  | none => .error "ENVIRONMENT is required"
  | some e =>
      if e.isEmpty then .error "ENVIRONMENT is required"
      else
        match envSuffix e with
        | some suf => .ok ("cg-aws-broker-" ++ suf)
        | none => .error ("Invalid ENVIRONMENT: " ++ e)

/-- add_cloudwatch_subscrition.make_prefixes (lines 42-58): same checks
with slightly different messages. -/
def makePrefixesSub (env : Option String) : Except String String :=
  match env with
  | none => .error "environment is required"
  | some e =>
      if e.isEmpty then .error "environment is required"
      else
        match envSuffix e with
        | some suf => .ok ("cg-aws-broker-" ++ suf)
        | none => .error ("environment is invalid: " ++ e)

/-! ## Metric pipeline (transform_lambda.py) -/

/-- The source constant `EXPECTED_NAMESPACES = ["AWS/S3", "AWS/ES", "AWS/RDS"]`. -/
def EXPECTED_NAMESPACES : List String := ["AWS/S3", "AWS/ES", "AWS/RDS"]

/-- The source constant `default_keys_to_remove` of transform_lambda.py. -/
def default_keys_to_remove : List String :=
  ["metric_stream_name", "account_id", "region"]

/-- A decoded metric-stream JSON line.  `ns` is the "namespace" key (absent
modelled as `none`), `dimensions` the dimension dict, `extra` the remaining
top-level string keys (metric_stream_name and friends live here), and
`tagsAttached` the "Tags" key written by process_metric. -/
structure Metric where
  ns : Option String
  dimensions : List (String × String)
  metric_name : Option String
  extra : List (String × String)
  tagsAttached : Option Dict
deriving DecidableEq, Repr

/-- The RDS ARN f-string of transform_lambda line 171 /
transform_cloudwatch_lambda line 185. -/
def rdsArn (region account db : String) : String :=
  "arn:aws-us-gov:rds:" ++ region ++ ":" ++ account ++ ":db:" ++ db

/-- The ES domain ARN f-string of transform_lambda line 166. -/
def esArn (region account domain : String) : String :=
  "arn:aws-us-gov:es:" ++ region ++ ":" ++ account ++ ":domain/" ++ domain

/-- transform_lambda.get_resource_tags_from_metric (lines 144-183).
`tags = \x7b\x7d`, then a branch per namespace; every exception inside the
body is caught by its blanket `except`, after which the current `tags`
(still `\x7b\x7d` on every raising path) is returned.  A missing dimension key
makes `.startswith` raise on `None` (caught), except in the RDS branch
which tests `db_name is not None` explicitly; both yield `\x7b\x7d`. -/
def getResourceTagsFromMetric (cl : Clients) (region account : String)
    (s3Pre domPre rdsPre : String) (m : Metric) (st : St) : Dict × St :=
  match m.ns with
  | some "AWS/S3" =>
      (match m.dimensions.lookup "BucketName" with
       | none => ([], st)
       | some bucket =>
           if strStarts s3Pre bucket then
             match getTagsFromNameC cl.s3fetch bucket st with
             | (some t, st1) => (t, st1)
             | (none, st1) => ([], st1)
           else ([], st))
  | some "AWS/ES" =>
      (match m.dimensions.lookup "DomainName" with
       | none => ([], st)
       | some domain =>
           if strStarts domPre domain then
             getTagsFromArnC cl.esfetch cl.dbfetch (esArn region account domain) st
           else ([], st))
  | some "AWS/RDS" =>
      (match m.dimensions.lookup "DBInstanceIdentifier" with
       | none => ([], st)
       | some db =>
           if strStarts rdsPre db then
             let r := getTagsFromArnC cl.esfetch cl.dbfetch (rdsArn region account db) st
             if !r.1.isEmpty && (m.metric_name == some "FreeStorageSpace") then
               let s := getRdsDescriptionC cl.descFetch db r.2
               (dictInsert r.1 "db_size" s.1, s.2)
             else r
           else ([], st))
  | _ => ([], st)

/-- transform_lambda.process_metric (lines 104-141): unexpected namespace
→ None; otherwise look up tags and attach them as "Tags" when non-empty,
else None.  (Its blanket `except` has nothing left to catch here: the
lookup is total in this model.) -/
def processMetric (cl : Clients) (region account : String)
    (s3Pre domPre rdsPre : String) (m : Metric) (st : St) :
    Option Metric × St :=
  let nsOk := match m.ns with
              | some s => EXPECTED_NAMESPACES.contains s
              | none => false
  if nsOk then
    let r := getResourceTagsFromMetric cl region account s3Pre domPre rdsPre m st
    if r.1.isEmpty then (none, r.2)
    else (some { m with tagsAttached := some r.1 }, r.2)
  else (none, st)

/-! ## Batch drivers -/

/-- A Firehose input record: `recordId`, the raw base64 `data` string, and
its decoded payload.  The outer `Except` models failure of the transport
decode (base64, and gzip in the log pipeline); each inner `Except` models
one line of the decoded payload, `.error` being a line `json.loads`
rejects. -/
structure InRecord (α : Type) where
  recordId : String
  data : String
  payload : Except Unit (List (Except Unit α))
deriving Repr

/-- The `data` field of an output record: the original input string
(dropped/failed records), the empty payload (log-pipeline Ok records,
whose content went to S3), or the serialized survivors (metric-pipeline
Ok records, standing for the base64 of their newline-delimited JSON). -/
inductive OutData (α : Type) where
  | passthrough (s : String)
  | emptyPayload
  | encoded (items : List α)
deriving DecidableEq, Repr

/-- An output record `\x7brecordId, result, data\x7d`. -/
structure OutRecord (α : Type) where
  recordId : String
  result : String
  data : OutData α
deriving DecidableEq, Repr

/-- Python `d.pop(k, None)` applied over default_keys_to_remove. -/
def popDefaultKeys (l : List (String × String)) : List (String × String) :=
  default_keys_to_remove.foldl (fun acc k => popKey k acc) l

/-- The per-record line loop of transform_lambda.lambda_handler
(lines 26-43): `json.loads` each line (a failure raises out of the whole
handler — there is no per-line catch in this pipeline), pop the three
default keys, run process_metric, and for survivors pop the ClientId
dimension. -/
def runMetricLines (cl : Clients) (region account : String)
    (s3Pre domPre rdsPre : String) :
    List (Except Unit Metric) → St → Except Unit (List Metric × St)
  | [], st => .ok ([], st)
  | line :: rest, st =>
      match line with
      | .error _ => .error ()
      | .ok m =>
          let m1 := { m with extra := popDefaultKeys m.extra }
          let r := processMetric cl region account s3Pre domPre rdsPre m1 st
          match runMetricLines cl region account s3Pre domPre rdsPre rest r.2 with
          | .error e => .error e
          | .ok (ms, st2) =>
              match r.1 with
              | some mr =>
                  .ok ({ mr with dimensions := popKey "ClientId" mr.dimensions }
                         :: ms, st2)
              | none => .ok (ms, st2)

/-- The record loop of transform_lambda.lambda_handler (lines 22-73): a
record whose lines yield survivors becomes Ok with the re-encoded
survivors; one with none becomes Dropped with its original data.  Any
exception (transport decode, json.loads) reaches the blanket
`except ... raise e` around the whole loop and aborts the invocation. -/
def metricLoop (cl : Clients) (region account : String)
    (s3Pre domPre rdsPre : String) :
    List (InRecord Metric) → St → Except Unit (List (OutRecord Metric) × St)
  | [], st => .ok ([], st)
  | r :: rest, st =>
      match r.payload with
      | .error _ => .error ()
      | .ok lines =>
          match runMetricLines cl region account s3Pre domPre rdsPre lines st with
          | .error e => .error e
          | .ok (ms, st1) =>
              let out : OutRecord Metric :=
                if ms.isEmpty then ⟨r.recordId, "Dropped", .passthrough r.data⟩
                else ⟨r.recordId, "Ok", .encoded ms⟩
              match metricLoop cl region account s3Pre domPre rdsPre rest st1 with
              | .error e => .error e
              | .ok (outs, st2) => .ok (out :: outs, st2)

/-- transform_lambda.lambda_handler (lines 14-74).  Prefixes come from
make_prefixes (which never raises in this module); region and account come
from the environment. -/
def lambdaHandlerMetric (cl : Clients) (env : Option String)
    (region account : String) (records : List (InRecord Metric)) (st : St) :
    Except Unit (List (OutRecord Metric) × St) :=
  let p := makePrefixesTL env
  metricLoop cl region account p.2.1 p.2.2 p.1 records st

/-! ## Log pipeline (transform_cloudwatch_lambda.py) -/

/-- One `\x7bid, timestamp, message\x7d` entry of logEvents. -/
structure LogEvent where
  id : String
  timestamp : Int
  message : String
deriving DecidableEq, Repr

/-- A decoded CloudWatch Logs JSON line; `none` fields model absent keys
(whose subscripting raises KeyError). -/
structure LogsRecord where
  logGroup : Option String
  logStream : Option String
  logEvents : Option (List LogEvent)
deriving DecidableEq, Repr

/-- An output entry written to S3 by the log pipeline. -/
structure LogEntry where
  logGroup : String
  logStream : String
  message : String
  timestamp : Int
  tags : Dict
deriving DecidableEq, Repr

/-- transform_cloudwatch_lambda.get_resource_tags_from_log
(lines 176-189). -/
def getResourceTagsFromLog (db : String → Except Unit (List (String × String)))
    (region account rdsPre : String) (name : String) (st : StCW) : Dict × StCW :=
  if strStarts rdsPre name then
    getTagsFromArnCW db (rdsArn region account name) st
  else ([], st)

/-- transform_cloudwatch_lambda.process_logs (lines 146-173).  Its blanket
`except` catches the KeyError from a missing logGroup/logStream/logEvents
key and the IndexError from a short logGroup path, returning None; empty
tags also return None; otherwise one entry per logEvent. -/
def processLogs (db : String → Except Unit (List (String × String)))
    (region account rdsPre : String) (lg : LogsRecord) (st : StCW) :
    Option (List LogEntry) × StCW :=
  match lg.logGroup with
  | none => (none, st)
  | some group =>
      match (splitOnSlash group).get? 4 with
      | none => (none, st)
      | some resource_name =>
          let r := getResourceTagsFromLog db region account rdsPre resource_name st
          if r.1.isEmpty then (none, r.2)
          else
            match lg.logEvents with
            | none => (none, r.2)
            | some [] => (some [], r.2)
            | some evs =>
                match lg.logStream with
                | none => (none, r.2)
                | some stream =>
                    (some (evs.map fun e =>
                      ⟨group, stream, e.message, e.timestamp, r.1⟩), r.2)

/-- The per-record line loop of transform_cloudwatch_lambda.lambda_handler
(lines 58-68): `json.loads` failures are caught per line and skipped
(`continue`); survivors of each line are appended in order. -/
def runLogLines (db : String → Except Unit (List (String × String)))
    (region account rdsPre : String) :
    List (Except Unit LogsRecord) → StCW → List LogEntry × StCW
  | [], st => ([], st)
  | .error _ :: rest, st => runLogLines db region account rdsPre rest st
  | .ok lg :: rest, st =>
      let r := processLogs db region account rdsPre lg st
      let rr := runLogLines db region account rdsPre rest r.2
      ((r.1.getD []) ++ rr.1, rr.2)

/-- The record loop of transform_cloudwatch_lambda.lambda_handler
(lines 51-96): transport decode failure is caught per record
(ProcessingFailed, original data); otherwise survivors make the record Ok
with an empty payload (content accumulated for S3), none make it
Dropped with its original data. -/
def cwLoop (db : String → Except Unit (List (String × String)))
    (region account rdsPre : String) :
    List (InRecord LogsRecord) → StCW →
    List (OutRecord LogEntry) × List LogEntry × StCW
  | [], st => ([], [], st)
  | r :: rest, st =>
      match r.payload with
      | .error _ =>
          let rr := cwLoop db region account rdsPre rest st
          (⟨r.recordId, "ProcessingFailed", .passthrough r.data⟩ :: rr.1,
           rr.2.1, rr.2.2)
      | .ok lines =>
          let pl := runLogLines db region account rdsPre lines st
          let out : OutRecord LogEntry :=
            if pl.1.isEmpty then ⟨r.recordId, "Dropped", .passthrough r.data⟩
            else ⟨r.recordId, "Ok", .emptyPayload⟩
          let rr := cwLoop db region account rdsPre rest pl.2
          (out :: rr.1, pl.1 ++ rr.2.1, rr.2.2)

/-- The configuration surface of transform_cloudwatch_lambda.lambda_handler:
region, S3_BUCKET_NAME, ACCOUNT_ID, ENVIRONMENT (each `none` when unset). -/
structure CWConfig where
  region : Option String
  bucket : Option String
  account : Option String
  env : Option String
deriving DecidableEq, Repr

/-- Python truthiness of an optional string: unset and `""` are falsy. -/
def truthy : Option String → Option String
  | some s => if s.isEmpty then none else some s
  | none => none

/-- The configuration validation of lambda_handler lines 24-49 succeeds:
region, bucket and account truthy and make_prefixes does not raise. -/
def cwConfigOk (cfg : CWConfig) : Bool :=
  (truthy cfg.region).isSome && (truthy cfg.bucket).isSome &&
    (truthy cfg.account).isSome &&
    (match makePrefixesCW cfg.env with | .ok _ => true | .error _ => false)

/-- transform_cloudwatch_lambda.lambda_handler (lines 16-121).  A
configuration/initialization failure returns `\x7b"records": []\x7d`; after the
record loop, a non-empty aggregate is written to S3 as one object
(`putOk = false` models `put_object` raising, which is re-raised and
aborts the invocation). -/
def lambdaHandlerCW (db : String → Except Unit (List (String × String)))
    (cfg : CWConfig) (putOk : Bool) (records : List (InRecord LogsRecord))
    (st : StCW) : Except Unit (List (OutRecord LogEntry)) :=
  match truthy cfg.region, truthy cfg.bucket, truthy cfg.account,
      makePrefixesCW cfg.env with
  | some region, some _, some account, .ok rdsPre =>
      let r := cwLoop db region account rdsPre records st
      if !r.2.1.isEmpty && !putOk then .error () else .ok r.1
  | _, _, _, _ => .ok []

/-! ## Subscription provisioner (add_cloudwatch_subscrition.py) -/

/-- The outcome of `logs.put_subscription_filter`: success, the
ResourceAlreadyExistsException (the only caught exception), or any other
client error (uncaught). -/
inductive PutResult where
  | ok
  | alreadyExists
  | otherErr
deriving DecidableEq, Repr

/-- add_cloudwatch_subscrition.lambda_handler (lines 10-39).  FIREHOSE_ARN
and ROLE_ARN are `os.environ[...]` (KeyError when unset); the prefix comes
from make_prefixes; a truthy logGroupName starting with
`/aws/rds/instance/<rds_prefix>` triggers the put, whose
already-exists outcome is re-raised as RuntimeError; everything else
no-ops. -/
def subLambdaHandler (firehose role : Option String) (env : Option String)
    (logGroupName : Option String) (put : PutResult) : Except String Unit :=
  match firehose with
  | none => .error "KeyError: FIREHOSE_ARN"
  | some _ =>
  match role with
  | none => .error "KeyError: ROLE_ARN"
  | some _ =>
  match makePrefixesSub env with
  | .error e => .error e
  | .ok rdsPre =>
      match truthy logGroupName with
      | some n =>
          if strStarts ("/aws/rds/instance/" ++ rdsPre) n then
            match put with
            | .ok => .ok ()
            | .alreadyExists =>
                .error ("Subscription filter already exists for " ++ n)
            | .otherErr => .error "unhandled client error"
          else .ok ()
      | none => .ok ()

/-! ## Concrete fixtures used by witnesses -/

/-- Clients whose every call raises. -/
def clFail : Clients :=
  ⟨fun _ => .error S3Err.other, fun _ => .error (), fun _ => .error (),
   fun _ => .error ()⟩

/-- Clients whose RDS tag API returns a usable tag set (`Organization
GUID` present) and whose description API returns 100 GB. -/
def clGood : Clients :=
  ⟨fun _ => .error S3Err.other, fun _ => .error (),
   fun _ => .ok [("Organization GUID", "x"), ("Owner", "team")],
   fun _ => .ok 100⟩

/-- Clients with a usable RDS tag API but a failing describe_db_instances. -/
def clDescFail : Clients :=
  ⟨fun _ => .error S3Err.other, fun _ => .error (),
   fun _ => .ok [("Organization GUID", "x"), ("Owner", "team")],
   fun _ => .error ()⟩

/-- Projection of the metric handler's outcome onto the per-record result
strings (None when the invocation raised). -/
def okResults (e : Except Unit (List (OutRecord Metric) × St)) :
    Option (List String) :=
  match e with
  | .ok p => some (p.1.map (fun o => o.result))
  | .error _ => none

/-- The decodable lines of a payload (what remains after the log
pipeline's per-line `except json.JSONDecodeError: continue`). -/
def goodLines (lines : List (Except Unit LogsRecord)) :
    List (Except Unit LogsRecord) :=
  lines.filterMap (fun l => match l with
    | .ok x => some (.ok x)
    | .error _ => none)

/-! ## Lemmas and claim theorems -/

theorem LRU.find_insert {α : Type} (c : LRU α) (k : String) (v : α) :
    (c.insert k v).find? k = some v := by
  simp [LRU.insert, LRU.find?, LRU_CAP, List.take_succ_cons]

theorem LRU.find_touch {α : Type} (c : LRU α) (k : String) :
    (c.touch k).find? k = c.find? k := by
  unfold LRU.touch
  cases h : c.find? k with
  | none => exact h
  | some v => simp [LRU.find?]

/-! ## C1: batches map 1:1 onto output records -/

theorem metricLoop_recordIds (cl : Clients) (region account a b c : String)
    (records : List (InRecord Metric)) (st : St)
    (outs : List (OutRecord Metric)) (stF : St)
    (h : metricLoop cl region account a b c records st = .ok (outs, stF)) :
    outs.map (fun o => o.recordId) = records.map (fun r => r.recordId) := by
  induction records generalizing st outs stF with
  | nil =>
      simp only [metricLoop] at h
      cases h
      rfl
  | cons r rest ih =>
      cases hp : r.payload with
      | error e => simp only [metricLoop, hp] at h; cases h
      | ok lines =>
          simp only [metricLoop, hp] at h
          cases hl : runMetricLines cl region account a b c lines st with
          | error e => simp only [hl] at h; cases h
          | ok p =>
              simp only [hl] at h
              cases hm : metricLoop cl region account a b c rest p.2 with
              | error e => simp only [hm] at h; cases h
              | ok q =>
                  simp only [hm] at h
                  cases h
                  simp only [List.map_cons]
                  rw [ih p.2 q.1 q.2 hm]
                  congr 1
                  by_cases he : p.1.isEmpty <;> simp [he]

theorem cwLoop_recordIds (db : String → Except Unit (List (String × String)))
    (region account rdsPre : String) (records : List (InRecord LogsRecord))
    (st : StCW) :
    (cwLoop db region account rdsPre records st).1.map (fun o => o.recordId) =
      records.map (fun r => r.recordId) := by
  induction records generalizing st with
  | nil => rfl
  | cons r rest ih =>
      simp only [cwLoop]
      cases hp : r.payload with
      | error e => simp [ih]
      | ok lines =>
          simp only [List.map_cons, ih]
          congr 1
          by_cases he :
              (runLogLines db region account rdsPre lines st).1.isEmpty <;>
            simp [he]

/-- C1: for every batch the two transform drivers' lambda_handler returns
(the metric pipeline whenever it returns at all, the log pipeline under a
valid configuration), the output list has one record per input record, in
input order, carrying the matching recordId. -/
theorem c1_output_records_one_to_one :
    (∀ (cl : Clients) (env : Option String) (region account : String)
       (records : List (InRecord Metric)) (st : St)
       (outs : List (OutRecord Metric)) (stF : St),
       lambdaHandlerMetric cl env region account records st = .ok (outs, stF) →
       outs.map (fun o => o.recordId) = records.map (fun r => r.recordId)) ∧
    (∀ (db : String → Except Unit (List (String × String))) (cfg : CWConfig)
       (putOk : Bool) (records : List (InRecord LogsRecord)) (st : StCW)
       (outs : List (OutRecord LogEntry)),
       cwConfigOk cfg = true →
       lambdaHandlerCW db cfg putOk records st = .ok outs →
       outs.map (fun o => o.recordId) = records.map (fun r => r.recordId)) := by
  constructor
  · intro cl env region account records st outs stF h
    exact metricLoop_recordIds cl region account _ _ _ records st outs stF h
  · intro db cfg putOk records st outs hcfg h
    unfold lambdaHandlerCW at h
    unfold cwConfigOk at hcfg
    cases hr : truthy cfg.region with
    | none => rw [hr] at hcfg; simp at hcfg
    | some region =>
      cases hb : truthy cfg.bucket with
      | none => rw [hb] at hcfg; simp at hcfg
      | some bucket =>
        cases ha : truthy cfg.account with
        | none => rw [ha] at hcfg; simp at hcfg
        | some account =>
          cases hp : makePrefixesCW cfg.env with
          | error e => rw [hp] at hcfg; simp at hcfg
          | ok rdsPre =>
              rw [hr, hb, ha, hp] at h
              simp only [] at h
              split at h
              · cases h
              · cases h
                exact cwLoop_recordIds db region account rdsPre records st

/-- Witness for C1 at a concrete two-record batch in each pipeline. -/
theorem c1_witness :
    ([(⟨"m1", "Ok", OutData.encoded
        [⟨some "AWS/RDS", [("DBInstanceIdentifier", "cg-aws-broker-dev-a")],
          some "CPUUtilization", [], some
            [("Organization GUID", TagVal.str "x"),
             ("Owner", TagVal.str "team")]⟩]⟩ : OutRecord Metric),
      ⟨"m2", "Dropped", OutData.passthrough "d2"⟩].map
        (fun o => o.recordId) =
      [(⟨"m1", "d1", Except.ok [Except.ok
          ⟨some "AWS/RDS", [("DBInstanceIdentifier", "cg-aws-broker-dev-a")],
           some "CPUUtilization", [], none⟩]⟩ : InRecord Metric),
       ⟨"m2", "d2", Except.ok []⟩].map (fun r => r.recordId)) ∧
    ([(⟨"l1", "ProcessingFailed", OutData.passthrough "x"⟩ :
        OutRecord LogEntry)].map (fun o => o.recordId) =
      [(⟨"l1", "x", Except.error ()⟩ : InRecord LogsRecord)].map
        (fun r => r.recordId)) := by
  constructor
  · exact c1_output_records_one_to_one.1 clGood (some "development") "r" "a"
      _ St.empty _ _ (by rfl)
  · exact c1_output_records_one_to_one.2 (fun _ => .error ())
      ⟨some "r", some "b", some "a", some "development"⟩ true _ StCW.empty _
      (by rfl) (by rfl)

/-! ## C3: make_prefixes on a missing/invalid environment selector -/

/-- C3 (code bug): transform_lambda.make_prefixes builds
`RuntimeError("environment is required")` without raising it and has no
membership check, so with ENVIRONMENT unset or invalid it silently returns
the default prefixes — while the identically-named functions of the other
two modules raise, as the spec requires. -/
theorem c3_make_prefixes_silent_fallback :
    makePrefixesTL none = ("cg-aws-broker-", "cg-", "cg-broker-") ∧
    makePrefixesTL (some "bogus") = ("cg-aws-broker-", "cg-", "cg-broker-") ∧
    makePrefixesCW none = .error "ENVIRONMENT is required" ∧
    makePrefixesCW (some "bogus") = .error "Invalid ENVIRONMENT: bogus" ∧
    makePrefixesSub none = .error "environment is required" ∧
    makePrefixesSub (some "bogus") = .error "environment is invalid: bogus" :=
  ⟨rfl, rfl, rfl, rfl, rfl, rfl⟩

/-! ## Shared cache lemmas -/

/-- After any call of the cached transform_lambda.get_tags_from_arn, the
cache holds exactly the returned dict under the queried ARN. -/
theorem getTagsFromArnC_caches (es db : String → Except Unit (List (String × String)))
    (arn : String) (st : St) :
    ((getTagsFromArnC es db arn st).2).arnCache.find? arn =
      some (getTagsFromArnC es db arn st).1 := by
  unfold getTagsFromArnC
  cases h : st.arnCache.find? arn with
  | some v => simpa [LRU.find_touch] using h
  | none => simp [LRU.find_insert]

/-- Same for the log pipeline's cached get_tags_from_arn. -/
theorem getTagsFromArnCW_caches (db : String → Except Unit (List (String × String)))
    (arn : String) (st : StCW) :
    ((getTagsFromArnCW db arn st).2).cache.find? arn =
      some (getTagsFromArnCW db arn st).1 := by
  unfold getTagsFromArnCW
  cases h : st.cache.find? arn with
  | some v => simpa [LRU.find_touch] using h
  | none => simp [LRU.find_insert]

/-- The uncached body of transform_lambda.get_tags_from_arn performs at
most one RDS fetch and one ES fetch, and touches nothing else in the
state. -/
theorem getTagsFromArnBody_state (es db : String → Except Unit (List (String × String)))
    (arn : String) (st : St) :
    (getTagsFromArnBody es db arn st).2.dbFetch ≤ st.dbFetch + 1 ∧
    (getTagsFromArnBody es db arn st).2.esFetch ≤ st.esFetch + 1 ∧
    (getTagsFromArnBody es db arn st).2.arnCache = st.arnCache ∧
    (getTagsFromArnBody es db arn st).2.descCalls = st.descCalls ∧
    (getTagsFromArnBody es db arn st).2.descApi = st.descApi ∧
    (getTagsFromArnBody es db arn st).2.descCache = st.descCache := by
  unfold getTagsFromArnBody
  cases hdom : substrIn ":domain/" arn <;>
    cases hdb : substrIn ":db:" arn <;>
    cases hes : es arn <;>
    cases hfd : db arn <;>
    simp [hdom, hdb, hes, hfd] <;>
    split <;> simp

/-- Every path through the cached transform_lambda.get_tags_from_arn
leaves the description cache and its counters alone. -/
theorem getTagsFromArnC_desc (es db : String → Except Unit (List (String × String)))
    (arn : String) (st : St) :
    (getTagsFromArnC es db arn st).2.descCalls = st.descCalls ∧
    (getTagsFromArnC es db arn st).2.descApi = st.descApi ∧
    (getTagsFromArnC es db arn st).2.descCache = st.descCache := by
  unfold getTagsFromArnC
  cases h : st.arnCache.find? arn with
  | some v => simp
  | none =>
      have hb := getTagsFromArnBody_state es db arn st
      simp [hb.2.2.2.1, hb.2.2.2.2.1, hb.2.2.2.2.2]

/-! ## C2: the required-tag policy forces and caches the empty mapping -/

/-- C2: for a ":db:"-ARN whose fetched tag dict lacks "Organization GUID",
both pipelines' get_tags_from_arn return the empty dict, and (on a cache
miss) that empty dict is exactly what the lru_cache stores — even though
the underlying fetch returned other, non-empty tags. -/
theorem c2_missing_guid_forces_empty (cl : Clients)
    (dbcw : String → Except Unit (List (String × String)))
    (arn : String) (tl : List (String × String)) (st : St) (stcw : StCW)
    (hdb : substrIn ":db:" arn = true)
    (hfetch : cl.dbfetch arn = .ok tl)
    (hfcw : dbcw arn = .ok tl)
    (hog : dictContains (dictOfTagList tl) "Organization GUID" = false) :
    (getTagsFromArnBody cl.esfetch cl.dbfetch arn st).1 = [] ∧
    (st.arnCache.find? arn = none →
      (getTagsFromArnC cl.esfetch cl.dbfetch arn st).1 = [] ∧
      (getTagsFromArnC cl.esfetch cl.dbfetch arn st).2.arnCache.find? arn =
        some []) ∧
    (getTagsFromArnCWBody dbcw arn stcw).1 = [] ∧
    (stcw.cache.find? arn = none →
      (getTagsFromArnCW dbcw arn stcw).1 = [] ∧
      (getTagsFromArnCW dbcw arn stcw).2.cache.find? arn = some []) := by
  have hbody : (getTagsFromArnBody cl.esfetch cl.dbfetch arn st).1 = [] := by
    unfold getTagsFromArnBody
    simp [hdb, hfetch, hog]
  have hbodycw : (getTagsFromArnCWBody dbcw arn stcw).1 = [] := by
    unfold getTagsFromArnCWBody
    simp [hdb, hfcw, hog]
  refine ⟨hbody, ?_, hbodycw, ?_⟩
  · intro hcold
    unfold getTagsFromArnC
    rw [hcold]
    simp only [hbody]
    exact ⟨trivial, LRU.find_insert _ _ _⟩
  · intro hcold
    unfold getTagsFromArnCW
    rw [hcold]
    simp only [hbodycw]
    exact ⟨trivial, LRU.find_insert _ _ _⟩

/-- Witness for C2: the fetch returns the non-empty tag set
`\x7b"Owner": "team"\x7d` with no "Organization GUID"; both lookups return and
cache `\x7b\x7d`. -/
theorem c2_witness :
    (getTagsFromArnBody clGood.esfetch
        (fun _ => .ok [("Owner", "team")]) "arn:a:db:x" St.empty).1 = [] ∧
    (St.empty.arnCache.find? "arn:a:db:x" = none →
      (getTagsFromArnC clGood.esfetch (fun _ => .ok [("Owner", "team")])
          "arn:a:db:x" St.empty).1 = [] ∧
      (getTagsFromArnC clGood.esfetch (fun _ => .ok [("Owner", "team")])
          "arn:a:db:x" St.empty).2.arnCache.find? "arn:a:db:x" = some []) ∧
    (getTagsFromArnCWBody (fun _ => .ok [("Owner", "team")]) "arn:a:db:x"
        StCW.empty).1 = [] ∧
    (StCW.empty.cache.find? "arn:a:db:x" = none →
      (getTagsFromArnCW (fun _ => .ok [("Owner", "team")]) "arn:a:db:x"
          StCW.empty).1 = [] ∧
      (getTagsFromArnCW (fun _ => .ok [("Owner", "team")]) "arn:a:db:x"
          StCW.empty).2.cache.find? "arn:a:db:x" = some []) :=
  c2_missing_guid_forces_empty
    ⟨clGood.s3fetch, clGood.esfetch, fun _ => .ok [("Owner", "team")],
     clGood.descFetch⟩
    (fun _ => .ok [("Owner", "team")]) "arn:a:db:x" [("Owner", "team")]
    St.empty StCW.empty (by decide) rfl rfl (by decide)

/-! ## C7: fetch failures are converted to the empty mapping -/

/-- C7: an exception from the underlying tag fetch is caught inside the
tag-lookup functions of both pipelines and becomes the empty dict: (a) a
database ARN whose RDS fetch raises, in transform_lambda's
get_tags_from_arn; (b) a domain ARN whose ES fetch raises, likewise;
(c) the same in transform_cloudwatch_lambda's get_tags_from_arn; and
(d) an S3 bucket lookup whose fetch raises a non-NoSuchTagSet error, at
the get_resource_tags_from_metric boundary (the exception escapes
get_tags_from_name but is caught there).  The lookup functions are total
— no error is propagated. -/
theorem c7_fetch_failure_yields_empty (cl : Clients)
    (dbcw : String → Except Unit (List (String × String)))
    (arn : String) (st : St) (stcw : StCW) :
    (substrIn ":db:" arn = true → substrIn ":domain/" arn = false →
      cl.dbfetch arn = .error () →
      (getTagsFromArnBody cl.esfetch cl.dbfetch arn st).1 = []) ∧
    (substrIn ":domain/" arn = true → substrIn ":db:" arn = false →
      cl.esfetch arn = .error () →
      (getTagsFromArnBody cl.esfetch cl.dbfetch arn st).1 = []) ∧
    (dbcw arn = .error () → (getTagsFromArnCWBody dbcw arn stcw).1 = []) ∧
    (∀ (region account s3Pre domPre rdsPre bucket : String) (m : Metric),
      m.ns = some "AWS/S3" →
      m.dimensions.lookup "BucketName" = some bucket →
      strStarts s3Pre bucket = true →
      st.nameCache.find? bucket = none →
      cl.s3fetch bucket = .error S3Err.other →
      (getResourceTagsFromMetric cl region account s3Pre domPre rdsPre m st).1
        = []) := by
  refine ⟨?_, ?_, ?_, ?_⟩
  · intro hdb hdom hf
    unfold getTagsFromArnBody
    simp [hdb, hdom, hf]
  · intro hdom hdb hf
    unfold getTagsFromArnBody
    simp [hdb, hdom, hf]
  · intro hf
    unfold getTagsFromArnCWBody
    cases hdb : substrIn ":db:" arn <;> simp [hdb, hf]
  · intro region account s3Pre domPre rdsPre bucket m hns hdim hpre hcold hf
    unfold getResourceTagsFromMetric
    rw [hns]
    simp only [hdim, hpre, if_true]
    unfold getTagsFromNameC
    rw [hcold, hf]

/-- Witness for C7 at concrete failing fetches. -/
theorem c7_witness :
    ((substrIn ":db:" "arn:a:db:x" = true → substrIn ":domain/" "arn:a:db:x" = false →
      clFail.dbfetch "arn:a:db:x" = .error () →
      (getTagsFromArnBody clFail.esfetch clFail.dbfetch "arn:a:db:x" St.empty).1 = []) ∧
     (substrIn ":domain/" "arn:a:db:x" = true → substrIn ":db:" "arn:a:db:x" = false →
      clFail.esfetch "arn:a:db:x" = .error () →
      (getTagsFromArnBody clFail.esfetch clFail.dbfetch "arn:a:db:x" St.empty).1 = []) ∧
     (clFail.dbfetch "arn:a:db:x" = .error () →
      (getTagsFromArnCWBody clFail.dbfetch "arn:a:db:x" StCW.empty).1 = []) ∧
     (∀ (region account s3Pre domPre rdsPre bucket : String) (m : Metric),
      m.ns = some "AWS/S3" →
      m.dimensions.lookup "BucketName" = some bucket →
      strStarts s3Pre bucket = true →
      St.empty.nameCache.find? bucket = none →
      clFail.s3fetch bucket = .error S3Err.other →
      (getResourceTagsFromMetric clFail region account s3Pre domPre rdsPre m
        St.empty).1 = [])) ∧
    (getTagsFromArnBody clFail.esfetch clFail.dbfetch "arn:a:db:x" St.empty).1
      = [] ∧
    (getTagsFromArnCWBody clFail.dbfetch "arn:a:db:x" StCW.empty).1 = [] ∧
    (getResourceTagsFromMetric clFail "r" "a" "cg-" "cg-broker-dev-"
      "cg-aws-broker-dev"
      ⟨some "AWS/S3", [("BucketName", "cg-bucket")], none, [], none⟩
      St.empty).1 = [] := by
  have h := c7_fetch_failure_yields_empty clFail clFail.dbfetch "arn:a:db:x"
    St.empty StCW.empty
  refine ⟨h, h.1 (by decide) (by decide) rfl, h.2.2.1 rfl, ?_⟩
  exact h.2.2.2 "r" "a" "cg-" "cg-broker-dev-" "cg-aws-broker-dev" "cg-bucket"
    ⟨some "AWS/S3", [("BucketName", "cg-bucket")], none, [], none⟩
    rfl rfl (by decide) rfl rfl

/-! ## C8: the tag cache is idempotent and fetches at most once -/

/-- C8: calling the cached get_tags_from_arn twice with the same ARN and
client (unchanged fetch functions) returns the same dict both times, the
second call performs no underlying fetch at all, and across both calls
each underlying API is invoked at most once.  Both pipelines. -/
theorem c8_cache_hit_on_second_call
    (es db dbcw : String → Except Unit (List (String × String)))
    (arn : String) (st : St) (stcw : StCW) :
    ((getTagsFromArnC es db arn ((getTagsFromArnC es db arn st).2)).1 =
        (getTagsFromArnC es db arn st).1 ∧
      (getTagsFromArnC es db arn ((getTagsFromArnC es db arn st).2)).2.dbFetch =
        (getTagsFromArnC es db arn st).2.dbFetch ∧
      (getTagsFromArnC es db arn ((getTagsFromArnC es db arn st).2)).2.esFetch =
        (getTagsFromArnC es db arn st).2.esFetch ∧
      (getTagsFromArnC es db arn st).2.dbFetch ≤ st.dbFetch + 1 ∧
      (getTagsFromArnC es db arn st).2.esFetch ≤ st.esFetch + 1) ∧
    ((getTagsFromArnCW dbcw arn ((getTagsFromArnCW dbcw arn stcw).2)).1 =
        (getTagsFromArnCW dbcw arn stcw).1 ∧
      (getTagsFromArnCW dbcw arn ((getTagsFromArnCW dbcw arn stcw).2)).2.dbFetch =
        (getTagsFromArnCW dbcw arn stcw).2.dbFetch ∧
      (getTagsFromArnCW dbcw arn stcw).2.dbFetch ≤ stcw.dbFetch + 1) := by
  constructor
  · have hcached := getTagsFromArnC_caches es db arn st
    constructor
    · conv_lhs => rw [getTagsFromArnC]
      rw [hcached]
    constructor
    · conv_lhs => rw [getTagsFromArnC]
      rw [hcached]
    constructor
    · conv_lhs => rw [getTagsFromArnC]
      rw [hcached]
    · unfold getTagsFromArnC
      cases h : st.arnCache.find? arn with
      | some v => simp
      | none =>
          have hb := getTagsFromArnBody_state es db arn st
          simp only []
          exact ⟨hb.1, hb.2.1⟩
  · have hcached := getTagsFromArnCW_caches dbcw arn stcw
    constructor
    · conv_lhs => rw [getTagsFromArnCW]
      rw [hcached]
    constructor
    · conv_lhs => rw [getTagsFromArnCW]
      rw [hcached]
    · unfold getTagsFromArnCW
      cases h : stcw.cache.find? arn with
      | some v => simp
      | none =>
          unfold getTagsFromArnCWBody
          cases hdb : substrIn ":db:" arn <;>
            cases hfd : dbcw arn <;> simp [hdb, hfd] <;> split <;> simp

/-! ## Dict lemmas -/

theorem dictFind?_cons (q : String × TagVal) (l : Dict) (k : String) :
    dictFind? (q :: l) k = if q.1 == k then some q.2 else dictFind? l k := by
  cases hq : q.1 == k <;> simp [dictFind?, List.find?, hq]

theorem dictFind?_insert (d : Dict) (k : String) (v : TagVal) :
    dictFind? (dictInsert d k v) k = some v := by
  induction d with
  | nil => simp [dictInsert, dictFind?, List.find?]
  | cons p d' ih =>
      by_cases hp : p.1 = k
      · have hany : (p :: d').any (fun q => q.1 == k) = true := by
          simp [List.any_cons, hp]
        rw [dictInsert, if_pos hany, List.map_cons]
        simp only [hp, beq_self_eq_true, if_true]
        rw [dictFind?_cons]
        simp
      · have hpb : (p.1 == k) = false := by simp [hp]
        cases hd : d'.any (fun q => q.1 == k) with
        | true =>
            have ih2 := ih
            rw [dictInsert, if_pos hd] at ih2
            have hany : (p :: d').any (fun q => q.1 == k) = true := by
              simp [List.any_cons, hd]
            rw [dictInsert, if_pos hany, List.map_cons]
            simp only [hpb, Bool.false_eq_true, if_false]
            rw [dictFind?_cons]
            simp only [hpb, Bool.false_eq_true, if_false]
            exact ih2
        | false =>
            have ih2 := ih
            rw [dictInsert, if_neg (by simp [hd])] at ih2
            have hany : (p :: d').any (fun q => q.1 == k) = false := by
              simp [List.any_cons, hd, hpb]
            rw [dictInsert, if_neg (by simp [hany]), List.cons_append]
            rw [dictFind?_cons]
            simp only [hpb, Bool.false_eq_true, if_false]
            exact ih2

theorem dictContains_eq_isSome (d : Dict) (k : String) :
    dictContains d k = (dictFind? d k).isSome := by
  induction d with
  | nil => rfl
  | cons p d' ih =>
      rw [dictFind?_cons]
      cases hp : p.1 == k with
      | true => simp [dictContains, List.any_cons, hp]
      | false =>
          simp only [dictContains, List.any_cons, hp, Bool.false_or,
            Bool.false_eq_true, if_false]
          exact ih

theorem dictContains_insert (d : Dict) (k : String) (v : TagVal) :
    dictContains (dictInsert d k v) k = true := by
  rw [dictContains_eq_isSome, dictFind?_insert]
  rfl

/-- get_rds_description touches only the description cache and its own
counters: the ARN cache and the fetch counters are left alone. -/
theorem getRdsDescriptionC_state (f : String → Except Unit Int)
    (d : String) (st : St) :
    (getRdsDescriptionC f d st).2.arnCache = st.arnCache ∧
    (getRdsDescriptionC f d st).2.dbFetch = st.dbFetch ∧
    (getRdsDescriptionC f d st).2.esFetch = st.esFetch := by
  unfold getRdsDescriptionC
  cases h : (st.descCache.find? d) with
  | some v => simp [h]
  | none => simp [h]

/-! ## C4: FreeStorageSpace adds db_size; empty base skips the lookup -/

/-- C4: for an AWS/RDS metric whose DBInstanceIdentifier matches the rds
prefix and whose metric_name is FreeStorageSpace: a non-empty base tag
mapping (the cached get_tags_from_arn result) yields a returned mapping
containing "db_size", while an empty base mapping leaves the
get_rds_description call count and its API count untouched (the
capacity-descriptor lookup is never invoked) and makes process_metric
drop the event (None). -/
theorem c4_free_storage_space (cl : Clients)
    (region account s3Pre domPre rdsPre db : String) (m : Metric) (st : St)
    (hns : m.ns = some "AWS/RDS")
    (hdim : m.dimensions.lookup "DBInstanceIdentifier" = some db)
    (hpre : strStarts rdsPre db = true)
    (hmn : m.metric_name = some "FreeStorageSpace") :
    (¬(getTagsFromArnC cl.esfetch cl.dbfetch (rdsArn region account db) st).1
        = [] →
      dictContains
        (getResourceTagsFromMetric cl region account s3Pre domPre rdsPre m st).1
        "db_size" = true) ∧
    ((getTagsFromArnC cl.esfetch cl.dbfetch (rdsArn region account db) st).1
        = [] →
      (getResourceTagsFromMetric cl region account s3Pre domPre rdsPre m
          st).2.descCalls = st.descCalls ∧
      (getResourceTagsFromMetric cl region account s3Pre domPre rdsPre m
          st).2.descApi = st.descApi ∧
      processMetric cl region account s3Pre domPre rdsPre m st =
        (none,
         (getResourceTagsFromMetric cl region account s3Pre domPre rdsPre m
           st).2)) := by
  have hunf :
      getResourceTagsFromMetric cl region account s3Pre domPre rdsPre m st =
        (let r := getTagsFromArnC cl.esfetch cl.dbfetch
            (rdsArn region account db) st
         if !r.1.isEmpty && (m.metric_name == some "FreeStorageSpace") then
           let s := getRdsDescriptionC cl.descFetch db r.2
           (dictInsert r.1 "db_size" s.1, s.2)
         else r) := by
    unfold getResourceTagsFromMetric
    rw [hns]
    simp only [hdim, hpre, if_true]
  constructor
  · intro hne
    rw [hunf]
    simp only [hmn]
    have hcond : (!(getTagsFromArnC cl.esfetch cl.dbfetch
        (rdsArn region account db) st).1.isEmpty &&
        ((some "FreeStorageSpace" : Option String) ==
          some "FreeStorageSpace")) = true := by
      simp [List.isEmpty_eq_true.not.mpr hne]
    rw [if_pos hcond]
    exact dictContains_insert _ _ _
  · intro hee
    have hcond : (!(getTagsFromArnC cl.esfetch cl.dbfetch
        (rdsArn region account db) st).1.isEmpty &&
        (m.metric_name == some "FreeStorageSpace")) = false := by
      simp [hee]
    have hres :
        getResourceTagsFromMetric cl region account s3Pre domPre rdsPre m st =
          getTagsFromArnC cl.esfetch cl.dbfetch (rdsArn region account db) st := by
      rw [hunf]
      simp only []
      rw [if_neg (by simp [hcond])]
    have hdesc := getTagsFromArnC_desc cl.esfetch cl.dbfetch
      (rdsArn region account db) st
    refine ⟨by rw [hres]; exact hdesc.1, by rw [hres]; exact hdesc.2.1, ?_⟩
    unfold processMetric
    rw [hns]
    simp only [EXPECTED_NAMESPACES, List.contains_cons, if_true]
    rw [hres]
    simp [hee]

/-- Witness for C4: with a usable fetched tag set the returned mapping
holds db_size; with a failing fetch (empty base) the descriptor lookup
count stays zero and the event is dropped. -/
theorem c4_witness :
    (dictContains
      (getResourceTagsFromMetric clGood "r" "a" "cg-" "cg-broker-dev-"
        "cg-aws-broker-dev"
        ⟨some "AWS/RDS", [("DBInstanceIdentifier", "cg-aws-broker-dev-a")],
         some "FreeStorageSpace", [], none⟩ St.empty).1 "db_size" = true) ∧
    ((getResourceTagsFromMetric clFail "r" "a" "cg-" "cg-broker-dev-"
        "cg-aws-broker-dev"
        ⟨some "AWS/RDS", [("DBInstanceIdentifier", "cg-aws-broker-dev-a")],
         some "FreeStorageSpace", [], none⟩ St.empty).2.descCalls =
      St.empty.descCalls) ∧
    (processMetric clFail "r" "a" "cg-" "cg-broker-dev-" "cg-aws-broker-dev"
        ⟨some "AWS/RDS", [("DBInstanceIdentifier", "cg-aws-broker-dev-a")],
         some "FreeStorageSpace", [], none⟩ St.empty =
      (none,
       (getResourceTagsFromMetric clFail "r" "a" "cg-" "cg-broker-dev-"
         "cg-aws-broker-dev"
         ⟨some "AWS/RDS", [("DBInstanceIdentifier", "cg-aws-broker-dev-a")],
          some "FreeStorageSpace", [], none⟩ St.empty).2)) := by
  have h1 := c4_free_storage_space clGood "r" "a" "cg-" "cg-broker-dev-"
    "cg-aws-broker-dev" "cg-aws-broker-dev-a"
    ⟨some "AWS/RDS", [("DBInstanceIdentifier", "cg-aws-broker-dev-a")],
     some "FreeStorageSpace", [], none⟩ St.empty rfl (by decide) (by decide) rfl
  have h2 := c4_free_storage_space clFail "r" "a" "cg-" "cg-broker-dev-"
    "cg-aws-broker-dev" "cg-aws-broker-dev-a"
    ⟨some "AWS/RDS", [("DBInstanceIdentifier", "cg-aws-broker-dev-a")],
     some "FreeStorageSpace", [], none⟩ St.empty rfl (by decide) (by decide) rfl
  exact ⟨h1.1 (by decide), (h2.2 (by decide)).1, (h2.2 (by decide)).2.2⟩

/-! ## C6: the db_size merge operates on a copy of the cached mapping -/

/-- C6: merging the synthesized db_size tag never mutates the dict stored
in the get_tags_from_arn cache (`result_tags = get_tags_from_arn(...).copy()`
in the source): after the enrichment of a FreeStorageSpace metric whose
base mapping is non-empty and lacks "db_size", the returned mapping has a
db_size key, yet the cache still maps the ARN to the base mapping, and a
later call for the same ARN is a hit (no fetch) returning that base
mapping — still without a db_size key. -/
theorem c6_db_size_merge_on_copy (cl : Clients)
    (region account s3Pre domPre rdsPre db : String) (m : Metric) (st : St)
    (hns : m.ns = some "AWS/RDS")
    (hdim : m.dimensions.lookup "DBInstanceIdentifier" = some db)
    (hpre : strStarts rdsPre db = true)
    (hmn : m.metric_name = some "FreeStorageSpace")
    (hne : ¬(getTagsFromArnC cl.esfetch cl.dbfetch (rdsArn region account db)
        st).1 = [])
    (hnodb : dictContains
        (getTagsFromArnC cl.esfetch cl.dbfetch (rdsArn region account db) st).1
        "db_size" = false) :
    dictContains
      (getResourceTagsFromMetric cl region account s3Pre domPre rdsPre m st).1
      "db_size" = true ∧
    (getResourceTagsFromMetric cl region account s3Pre domPre rdsPre m
        st).2.arnCache.find? (rdsArn region account db) =
      some (getTagsFromArnC cl.esfetch cl.dbfetch (rdsArn region account db)
        st).1 ∧
    (getTagsFromArnC cl.esfetch cl.dbfetch (rdsArn region account db)
        ((getResourceTagsFromMetric cl region account s3Pre domPre rdsPre m
          st).2)).1 =
      (getTagsFromArnC cl.esfetch cl.dbfetch (rdsArn region account db) st).1 ∧
    (getTagsFromArnC cl.esfetch cl.dbfetch (rdsArn region account db)
        ((getResourceTagsFromMetric cl region account s3Pre domPre rdsPre m
          st).2)).2.dbFetch =
      (getResourceTagsFromMetric cl region account s3Pre domPre rdsPre m
        st).2.dbFetch ∧
    dictContains
      (getTagsFromArnC cl.esfetch cl.dbfetch (rdsArn region account db) st).1
      "db_size" = false := by
  have hcond : (!(getTagsFromArnC cl.esfetch cl.dbfetch
      (rdsArn region account db) st).1.isEmpty &&
      (m.metric_name == some "FreeStorageSpace")) = true := by
    simp [hmn, List.isEmpty_eq_true.not.mpr hne]
  have hunf :
      getResourceTagsFromMetric cl region account s3Pre domPre rdsPre m st =
        (dictInsert
          (getTagsFromArnC cl.esfetch cl.dbfetch (rdsArn region account db)
            st).1 "db_size"
          (getRdsDescriptionC cl.descFetch db
            (getTagsFromArnC cl.esfetch cl.dbfetch (rdsArn region account db)
              st).2).1,
         (getRdsDescriptionC cl.descFetch db
           (getTagsFromArnC cl.esfetch cl.dbfetch (rdsArn region account db)
             st).2).2) := by
    unfold getResourceTagsFromMetric
    rw [hns]
    simp only [hdim, hpre, if_true]
    rw [if_pos hcond]
  have hfind :
      (getResourceTagsFromMetric cl region account s3Pre domPre rdsPre m
        st).2.arnCache.find? (rdsArn region account db) =
      some (getTagsFromArnC cl.esfetch cl.dbfetch (rdsArn region account db)
        st).1 := by
    rw [hunf]
    rw [(getRdsDescriptionC_state cl.descFetch db _).1]
    exact getTagsFromArnC_caches cl.esfetch cl.dbfetch _ st
  refine ⟨?_, hfind, ?_, ?_, hnodb⟩
  · rw [hunf]
    exact dictContains_insert _ _ _
  · conv_lhs => rw [getTagsFromArnC]
    rw [hfind]
  · conv_lhs => rw [getTagsFromArnC]
    rw [hfind]

/-- Witness for C6 at a concrete RDS FreeStorageSpace metric. -/
theorem c6_witness :
    dictContains
      (getResourceTagsFromMetric clGood "r" "a" "cg-" "cg-broker-dev-"
        "cg-aws-broker-dev"
        ⟨some "AWS/RDS", [("DBInstanceIdentifier", "cg-aws-broker-dev-a")],
         some "FreeStorageSpace", [], none⟩ St.empty).1 "db_size" = true ∧
    (getResourceTagsFromMetric clGood "r" "a" "cg-" "cg-broker-dev-"
        "cg-aws-broker-dev"
        ⟨some "AWS/RDS", [("DBInstanceIdentifier", "cg-aws-broker-dev-a")],
         some "FreeStorageSpace", [], none⟩ St.empty).2.arnCache.find?
        (rdsArn "r" "a" "cg-aws-broker-dev-a") =
      some (getTagsFromArnC clGood.esfetch clGood.dbfetch
        (rdsArn "r" "a" "cg-aws-broker-dev-a") St.empty).1 ∧
    (getTagsFromArnC clGood.esfetch clGood.dbfetch
        (rdsArn "r" "a" "cg-aws-broker-dev-a")
        ((getResourceTagsFromMetric clGood "r" "a" "cg-" "cg-broker-dev-"
          "cg-aws-broker-dev"
          ⟨some "AWS/RDS", [("DBInstanceIdentifier", "cg-aws-broker-dev-a")],
           some "FreeStorageSpace", [], none⟩ St.empty).2)).1 =
      (getTagsFromArnC clGood.esfetch clGood.dbfetch
        (rdsArn "r" "a" "cg-aws-broker-dev-a") St.empty).1 ∧
    (getTagsFromArnC clGood.esfetch clGood.dbfetch
        (rdsArn "r" "a" "cg-aws-broker-dev-a")
        ((getResourceTagsFromMetric clGood "r" "a" "cg-" "cg-broker-dev-"
          "cg-aws-broker-dev"
          ⟨some "AWS/RDS", [("DBInstanceIdentifier", "cg-aws-broker-dev-a")],
           some "FreeStorageSpace", [], none⟩ St.empty).2)).2.dbFetch =
      (getResourceTagsFromMetric clGood "r" "a" "cg-" "cg-broker-dev-"
        "cg-aws-broker-dev"
        ⟨some "AWS/RDS", [("DBInstanceIdentifier", "cg-aws-broker-dev-a")],
         some "FreeStorageSpace", [], none⟩ St.empty).2.dbFetch ∧
    dictContains
      (getTagsFromArnC clGood.esfetch clGood.dbfetch
        (rdsArn "r" "a" "cg-aws-broker-dev-a") St.empty).1 "db_size" = false :=
  c6_db_size_merge_on_copy clGood "r" "a" "cg-" "cg-broker-dev-"
    "cg-aws-broker-dev" "cg-aws-broker-dev-a"
    ⟨some "AWS/RDS", [("DBInstanceIdentifier", "cg-aws-broker-dev-a")],
     some "FreeStorageSpace", [], none⟩ St.empty rfl (by decide) (by decide)
    rfl (by decide) (by decide)

/-! ## C10: a failed capacity lookup emits Ok with db_size = None -/

/-- C10 (implicit): when describe_db_instances raises,
get_rds_description catches it and returns None, so the enriched
FreeStorageSpace metric still carries "db_size": None in its Tags, and
its record is emitted with disposition Ok — the db_size value of an Ok
record need not be a number. -/
theorem c10_desc_failure_emits_null (cl : Clients) (env : Option String)
    (region account s3Pre domPre rdsPre db rid data : String) (m : Metric)
    (st : St)
    (hpref : makePrefixesTL env = (rdsPre, s3Pre, domPre))
    (hns : m.ns = some "AWS/RDS")
    (hdim : m.dimensions.lookup "DBInstanceIdentifier" = some db)
    (hpre : strStarts rdsPre db = true)
    (hmn : m.metric_name = some "FreeStorageSpace")
    (hne : ¬(getTagsFromArnC cl.esfetch cl.dbfetch (rdsArn region account db)
        st).1 = [])
    (hcold : ((getTagsFromArnC cl.esfetch cl.dbfetch (rdsArn region account db)
        st).2).descCache.find? db = none)
    (hdescf : cl.descFetch db = .error ()) :
    (processMetric cl region account s3Pre domPre rdsPre m st).1 =
      some { m with tagsAttached := some (dictInsert
        (getTagsFromArnC cl.esfetch cl.dbfetch (rdsArn region account db)
          st).1 "db_size" TagVal.null) } ∧
    dictFind? (dictInsert
        (getTagsFromArnC cl.esfetch cl.dbfetch (rdsArn region account db)
          st).1 "db_size" TagVal.null) "db_size" = some TagVal.null ∧
    okResults (lambdaHandlerMetric cl env region account
      [⟨rid, data, .ok [.ok m]⟩] st) = some ["Ok"] := by
  have hsize : (getRdsDescriptionC cl.descFetch db
      (getTagsFromArnC cl.esfetch cl.dbfetch (rdsArn region account db)
        st).2).1 = TagVal.null := by
    unfold getRdsDescriptionC
    simp [hcold, hdescf]
  have core : ∀ mm : Metric, mm.ns = some "AWS/RDS" →
      mm.dimensions.lookup "DBInstanceIdentifier" = some db →
      mm.metric_name = some "FreeStorageSpace" →
      processMetric cl region account s3Pre domPre rdsPre mm st =
        (some { mm with tagsAttached := some (dictInsert
            (getTagsFromArnC cl.esfetch cl.dbfetch (rdsArn region account db)
              st).1 "db_size" TagVal.null) },
         (getRdsDescriptionC cl.descFetch db
           (getTagsFromArnC cl.esfetch cl.dbfetch (rdsArn region account db)
             st).2).2) := by
    intro mm hns2 hdim2 hmn2
    have hcond : (!(getTagsFromArnC cl.esfetch cl.dbfetch
        (rdsArn region account db) st).1.isEmpty &&
        (mm.metric_name == some "FreeStorageSpace")) = true := by
      simp [hmn2, List.isEmpty_eq_true.not.mpr hne]
    have hunf :
        getResourceTagsFromMetric cl region account s3Pre domPre rdsPre mm st =
          (dictInsert
            (getTagsFromArnC cl.esfetch cl.dbfetch (rdsArn region account db)
              st).1 "db_size"
            (getRdsDescriptionC cl.descFetch db
              (getTagsFromArnC cl.esfetch cl.dbfetch (rdsArn region account db)
                st).2).1,
           (getRdsDescriptionC cl.descFetch db
             (getTagsFromArnC cl.esfetch cl.dbfetch (rdsArn region account db)
               st).2).2) := by
      unfold getResourceTagsFromMetric
      rw [hns2]
      simp only [hdim2, hpre, if_true]
      rw [if_pos hcond]
    have hinz : (dictInsert
        (getTagsFromArnC cl.esfetch cl.dbfetch (rdsArn region account db)
          st).1 "db_size"
        (getRdsDescriptionC cl.descFetch db
          (getTagsFromArnC cl.esfetch cl.dbfetch (rdsArn region account db)
            st).2).1).isEmpty = false := by
      unfold dictInsert
      split
      · simpa [List.isEmpty_eq_true, List.map_eq_nil_iff] using hne
      · simp [List.isEmpty_eq_true]
    unfold processMetric
    rw [hns2]
    simp only [EXPECTED_NAMESPACES, List.contains_cons, if_true]
    rw [hunf]
    simp only [hinz, Bool.false_eq_true, if_false]
    rw [hsize]
    rw [if_pos (by decide)]
  refine ⟨?_, dictFind?_insert _ _ _, ?_⟩
  · have h := core m hns hdim hmn
    rw [h]
  · unfold lambdaHandlerMetric
    rw [hpref]
    simp only [metricLoop, runMetricLines]
    rw [core { m with extra := popDefaultKeys m.extra } hns hdim hmn]
    rfl

/-- Witness for C10 at a concrete FreeStorageSpace metric whose
describe_db_instances call fails. -/
theorem c10_witness :
    (processMetric clDescFail "r" "a" "development-cg-" "cg-broker-dev-"
        "cg-aws-broker-dev"
        ⟨some "AWS/RDS", [("DBInstanceIdentifier", "cg-aws-broker-dev-a")],
         some "FreeStorageSpace", [], none⟩ St.empty).1 =
      some { (⟨some "AWS/RDS",
          [("DBInstanceIdentifier", "cg-aws-broker-dev-a")],
          some "FreeStorageSpace", [], none⟩ : Metric) with
        tagsAttached := some (dictInsert
          (getTagsFromArnC clDescFail.esfetch clDescFail.dbfetch
            (rdsArn "r" "a" "cg-aws-broker-dev-a") St.empty).1 "db_size"
          TagVal.null) } ∧
    dictFind? (dictInsert
        (getTagsFromArnC clDescFail.esfetch clDescFail.dbfetch
          (rdsArn "r" "a" "cg-aws-broker-dev-a") St.empty).1 "db_size"
        TagVal.null) "db_size" = some TagVal.null ∧
    okResults (lambdaHandlerMetric clDescFail (some "development") "r" "a"
      [⟨"r1", "d",
        .ok [.ok ⟨some "AWS/RDS",
          [("DBInstanceIdentifier", "cg-aws-broker-dev-a")],
          some "FreeStorageSpace", [], none⟩]⟩] St.empty) = some ["Ok"] :=
  c10_desc_failure_emits_null clDescFail (some "development") "r" "a"
    "development-cg-" "cg-broker-dev-" "cg-aws-broker-dev"
    "cg-aws-broker-dev-a" "r1" "d"
    ⟨some "AWS/RDS", [("DBInstanceIdentifier", "cg-aws-broker-dev-a")],
     some "FreeStorageSpace", [], none⟩ St.empty
    (by decide) rfl (by decide) (by decide) rfl (by decide) (by decide) rfl

/-! ## C5: per-line JSON decode errors -/

/-- In the metric pipeline an invalid JSON line anywhere in a record's
payload makes the line loop raise (there is no per-line catch). -/
theorem runMetricLines_error_aborts (cl : Clients)
    (region account a b c : String) (mlines : List (Except Unit Metric))
    (hmem : (Except.error () : Except Unit Metric) ∈ mlines) :
    ∀ st : St, runMetricLines cl region account a b c mlines st =
      .error () := by
  induction mlines with
  | nil => cases hmem
  | cons l rest ih =>
      intro st
      cases l with
      | error e => simp [runMetricLines]
      | ok mm =>
          have h' : (Except.error () : Except Unit Metric) ∈ rest := by
            rcases List.mem_cons.mp hmem with h1 | h2
            · cases h1
            · exact h2
          simp only [runMetricLines]
          rw [ih h']

/-- In the log pipeline a record's line loop behaves exactly as if the
undecodable lines were absent: they are skipped with no effect on the
other lines or on the state. -/
theorem runLogLines_skips_bad_lines
    (db : String → Except Unit (List (String × String)))
    (region account rdsPre : String) (lines : List (Except Unit LogsRecord))
    (st : StCW) :
    runLogLines db region account rdsPre lines st =
      runLogLines db region account rdsPre (goodLines lines) st := by
  induction lines generalizing st with
  | nil => rfl
  | cons l rest ih =>
      cases l with
      | error e =>
          simp only [goodLines, List.filterMap_cons]
          exact ih st
      | ok lg =>
          simp only [goodLines, List.filterMap_cons, runMetricLines]
          simp only [runLogLines]
          rw [ih]
          rfl

/-- C5 (amended): per-line handling of invalid JSON holds only in the log
pipeline: (i) bad lines are skipped with no effect on the rest of the
record; (ii) a record whose usable lines produce nothing becomes Dropped
(not ProcessingFailed) while the rest of the batch continues; but (iii) in
the metric pipeline (transform_lambda) a single invalid JSON line raises
out of lambda_handler and aborts the whole invocation with no output
records. -/
theorem c5_decode_errors_per_line
    (db : String → Except Unit (List (String × String))) (cl : Clients)
    (env : Option String) (region account rdsPre rid data : String)
    (lines : List (Except Unit LogsRecord))
    (mlines : List (Except Unit Metric))
    (r : InRecord LogsRecord) (rest : List (InRecord LogsRecord))
    (mrest : List (InRecord Metric)) (st : StCW) (stm : St) :
    (runLogLines db region account rdsPre lines st =
      runLogLines db region account rdsPre (goodLines lines) st) ∧
    (r.payload = .ok lines →
      (runLogLines db region account rdsPre lines st).1 = [] →
      (cwLoop db region account rdsPre (r :: rest) st).1.head? =
        some ⟨r.recordId, "Dropped", OutData.passthrough r.data⟩) ∧
    ((Except.error () : Except Unit Metric) ∈ mlines →
      lambdaHandlerMetric cl env region account
        (⟨rid, data, .ok mlines⟩ :: mrest) stm = .error ()) := by
  refine ⟨runLogLines_skips_bad_lines db region account rdsPre lines st,
    ?_, ?_⟩
  · intro hp hz
    simp only [cwLoop, hp]
    simp [hz]
  · intro hmem
    unfold lambdaHandlerMetric
    simp only [metricLoop]
    rw [runMetricLines_error_aborts cl region account _ _ _ mlines hmem stm]

/-- C5 counterexample: in the metric pipeline a record containing one
invalid JSON line makes the whole lambda_handler invocation raise — the
batch is aborted, no record receives the Dropped disposition. -/
theorem c5_counterexample :
    lambdaHandlerMetric clFail (some "development") "r" "a"
      [⟨"r1", "d1", .ok [.error ()]⟩] St.empty = .error () := rfl

/-- Witness for C5 at a concrete batch in each pipeline. -/
theorem c5_witness :
    (runLogLines (fun _ => .error ()) "r" "a" "cg-aws-broker-dev"
        [.error (), .ok ⟨some "/aws/rds/instance/zzz/postgresql", some "s",
          some []⟩] StCW.empty =
      runLogLines (fun _ => .error ()) "r" "a" "cg-aws-broker-dev"
        (goodLines [.error (), .ok ⟨some "/aws/rds/instance/zzz/postgresql",
          some "s", some []⟩]) StCW.empty) ∧
    ((cwLoop (fun _ => .error ()) "r" "a" "cg-aws-broker-dev"
        [⟨"c1", "cd", .ok [.error (), .ok ⟨some
          "/aws/rds/instance/zzz/postgresql", some "s", some []⟩]⟩]
        StCW.empty).1.head? =
      some ⟨"c1", "Dropped", OutData.passthrough "cd"⟩) ∧
    (lambdaHandlerMetric clFail (some "development") "r" "a"
      [⟨"m1", "md", .ok [.error ()]⟩] St.empty = .error ()) := by
  have h := c5_decode_errors_per_line (fun _ => .error ()) clFail
    (some "development") "r" "a" "cg-aws-broker-dev" "m1" "md"
    [.error (), .ok ⟨some "/aws/rds/instance/zzz/postgresql", some "s",
      some []⟩] [.error ()]
    ⟨"c1", "cd", .ok [.error (), .ok ⟨some "/aws/rds/instance/zzz/postgresql",
      some "s", some []⟩]⟩ [] [] StCW.empty St.empty
  exact ⟨h.1, h.2.1 rfl (by decide), h.2.2 (List.mem_cons_self _ _)⟩

/-! ## C9: the subscription provisioner raises on conflict, no-ops otherwise -/

/-- C9: with a valid configuration, when the created log group matches
`/aws/rds/instance/<rds_prefix>` and put_subscription_filter reports the
filter already exists, lambda_handler raises (RuntimeError); when
logGroupName is absent, or present but not matching the prefix, it
returns without raising, whatever the put outcome would have been. -/
theorem c9_provisioner_conflict_and_noop (fh role : String)
    (env : Option String) (rdsPre n : String) (put : PutResult)
    (hpre : makePrefixesSub env = .ok rdsPre) :
    (strStarts ("/aws/rds/instance/" ++ rdsPre) n = true →
      n.isEmpty = false →
      subLambdaHandler (some fh) (some role) env (some n)
          PutResult.alreadyExists =
        .error ("Subscription filter already exists for " ++ n)) ∧
    (subLambdaHandler (some fh) (some role) env none put = .ok ()) ∧
    (strStarts ("/aws/rds/instance/" ++ rdsPre) n = false →
      subLambdaHandler (some fh) (some role) env (some n) put = .ok ()) := by
  refine ⟨?_, ?_, ?_⟩
  · intro hm hni
    unfold subLambdaHandler
    rw [hpre]
    simp only [truthy, hni, Bool.false_eq_true, if_false, hm, if_true]
  · unfold subLambdaHandler
    rw [hpre]
    rfl
  · intro hm
    unfold subLambdaHandler
    rw [hpre]
    cases hni : n.isEmpty <;>
      simp [truthy, hni, hm]

/-- Witness for C9 in the development environment, with a matching and a
non-matching log group. -/
theorem c9_witness :
    (subLambdaHandler (some "fh") (some "ro") (some "development")
        (some "/aws/rds/instance/cg-aws-broker-dev-x/postgresql")
        PutResult.alreadyExists =
      .error ("Subscription filter already exists for " ++
        "/aws/rds/instance/cg-aws-broker-dev-x/postgresql")) ∧
    (subLambdaHandler (some "fh") (some "ro") (some "development") none
      PutResult.alreadyExists = .ok ()) ∧
    (subLambdaHandler (some "fh") (some "ro") (some "development")
      (some "/aws/lambda/other") PutResult.alreadyExists = .ok ()) := by
  have h1 := c9_provisioner_conflict_and_noop "fh" "ro" (some "development")
    "cg-aws-broker-dev" "/aws/rds/instance/cg-aws-broker-dev-x/postgresql"
    PutResult.alreadyExists rfl
  have h2 := c9_provisioner_conflict_and_noop "fh" "ro" (some "development")
    "cg-aws-broker-dev" "/aws/lambda/other" PutResult.alreadyExists rfl
  exact ⟨h1.1 (by decide) (by decide), h1.2.1, h2.2.2 (by decide)⟩

end OSP
